import Mathlib

/-!
Verification of the detection-to-presentation pipeline of `src/App.tsx`
(a React Native code-scanner overlay).

The embedding models:
* the coordinate mapper inside `onCodeScanned` (lines 44-62): per-code
  rectangle scaling and the `reduce`-built corners object;
* the per-frame state machine of `onCodeScanned` (lines 34-88): the
  `isScanning` gate, the cancel-then-reschedule discipline for the 300 ms
  clear timer, and the wholesale replacement of `boxes` / `uniqueCodes`;
* the Start/Stop buttons (lines 160-166) and the unmount cleanup
  (lines 93-97).

JavaScript numbers are modelled as rationals (ℚ); clock readings
(`Date.now()`) as integers (milliseconds, ℤ).  The two `Date.now()` calls
inside the non-empty branch are modelled as two readings `t0` (the
`startTime` of line 41) and `t1` (the reading taken during the
`uniqueCodes` map of line 69, also used as the scheduling instant of the
`setTimeout` of line 76).  Pending `setTimeout` timers of the JS runtime
are modelled as a list of (handle, deadline) pairs, and `timerRef.current`
as an optional handle: `clearTimeout` removes the referenced handle from
the runtime's pending list, and a pending timer may fire once its deadline
has passed.
-/

namespace ObjectDetection

/-- A corner point of a detected code, in detector frame pixels. -/
structure Point where
  x : ℚ
  y : ℚ
deriving DecidableEq, Repr

/-- `code.frame` : the bounding rectangle of a detected code, in detector
frame pixels. -/
structure Rect where
  x : ℚ
  y : ℚ
  width : ℚ
  height : ℚ
deriving DecidableEq, Repr

/-- A code reported by the external scanner: decoded payload (absent when
decoding failed), bounding rectangle, and corner points. -/
structure RawCode where
  value : Option String
  frame : Rect
  corners : List Point
deriving DecidableEq, Repr

/-- Dimensions of the detector frame (the `frame` argument of
`onCodeScanned`). -/
structure FrameDims where
  width : ℚ
  height : ℚ
deriving DecidableEq, Repr

/-- Device metrics captured at component render (lines 13-18). -/
structure Metrics where
  screenWidthPixelsRounded : ℚ
  screenHeightPixelsRounded : ℚ
  pixelRatio : ℚ
deriving DecidableEq, Repr

/-- One entry of the `boxes` state: display-space rectangle plus the
corners object built by the `reduce` of lines 45-49.  The corners object
is modelled as its insertion-ordered list of (key, value) pairs. -/
structure DisplayBox where
  x : ℚ
  y : ℚ
  width : ℚ
  height : ℚ
  corners : List (String × ℚ)
deriving DecidableEq, Repr

/-- One entry of the `uniqueCodes` state (value, per-frame scan time in
milliseconds).  The value is kept as an `Option` because the filter of
line 71 runs after the map of lines 67-70. -/
structure ScannedEntry where
  value : Option String
  scanTime : ℤ
deriving DecidableEq, Repr

/-- Key string `point{i+1}x` of the corners object (0-based `i`, matching
the `reduce` index of line 45). -/
def pointKeyX (i : ℕ) : String :=
  "point" ++ Nat.repr (i + 1) ++ "x"

/-- Key string `point{i+1}y` of the corners object. -/
def pointKeyY (i : ℕ) : String :=
  "point" ++ Nat.repr (i + 1) ++ "y"

/-- The corners object of lines 45-49: a `reduce` over the code's corner
list, inserting `point{i+1}x` then `point{i+1}y` for the corner at index
`i`.  Object-key insertion order is modelled by list append. -/
def buildCorners (m : Metrics) (f : FrameDims) (corners : List Point) :
    List (String × ℚ) :=
  corners.enum.foldl
    (fun acc ip =>
      acc ++ [(pointKeyX ip.1, ip.2.x * m.screenWidthPixelsRounded / f.height),
              (pointKeyY ip.1, ip.2.y * m.screenHeightPixelsRounded / f.width)])
    []

/-- The per-code body of the `codes.map` of lines 44-62: horizontal
quantities scale by `screenWidthPixelsRounded / frame.height`, vertical by
`screenHeightPixelsRounded / frame.width`; the four rectangle fields are
then divided by `pixelRatio`, the corners are not. -/
def mapCode (m : Metrics) (f : FrameDims) (code : RawCode) : DisplayBox :=
  let corners := buildCorners m f code.corners
  let x := code.frame.x * m.screenWidthPixelsRounded / f.height
  let y := code.frame.y * m.screenHeightPixelsRounded / f.width
  let width := code.frame.width * m.screenWidthPixelsRounded / f.height
  let height := code.frame.height * m.screenHeightPixelsRounded / f.width
  { x := x / m.pixelRatio
    y := y / m.pixelRatio
    width := width / m.pixelRatio
    height := height / m.pixelRatio
    corners := corners }

/-- The `currentFrameValues` computation of lines 66-71: map each code to
`{value, scanTime: Date.now() - startTime}` (here `t1 - t0`), then drop
entries whose value is null/undefined. -/
def mkEntries (codes : List RawCode) (t0 t1 : ℤ) : List ScannedEntry :=
  (codes.map (fun code => { value := code.value, scanTime := t1 - t0 }))
    |>.filter (fun data => data.value.isSome)

/-- Session state: the two React state arrays, the scanning gate, the
`timerRef` cell, and the JS runtime's pending timers (handle, deadline).
`nextId` supplies fresh timer handles. -/
structure SessionState where
  isScanning : Bool
  boxes : List DisplayBox
  uniqueCodes : List ScannedEntry
  pendingTimers : List (ℕ × ℤ)
  timerRef : Option ℕ
  nextId : ℕ
deriving DecidableEq, Repr

/-- State at component mount (lines 20-30): not scanning, both arrays
empty, `timerRef.current = null`, no pending timers. -/
def initialState : SessionState :=
  { isScanning := false
    boxes := []
    uniqueCodes := []
    pendingTimers := []
    timerRef := none
    nextId := 0 }

/-- Lines 36-38: `if (timerRef.current) clearTimeout(timerRef.current)`.
`clearTimeout` removes the referenced handle from the runtime's pending
timers; the ref itself is not nulled by the source. -/
def cancelRef (s : SessionState) : SessionState :=
  match s.timerRef with
  | some id => { s with pendingTimers := s.pendingTimers.filter (fun p => p.1 ≠ id) }
  | none => s

/-- The `onCodeScanned` handler (lines 34-88) for one detection frame.
`t0` is the `startTime` reading of line 41, `t1` the later `Date.now()`
reading of line 69 (also used as the scheduling instant of the 300 ms
timeout of lines 76-79). -/
def handleFrame (m : Metrics) (s : SessionState) (codes : List RawCode)
    (f : FrameDims) (t0 t1 : ℤ) : SessionState :=
  if s.isScanning then
    let s1 := cancelRef s
    if codes.length > 0 then
      { s1 with
        boxes := codes.map (mapCode m f)
        uniqueCodes := mkEntries codes t0 t1
        pendingTimers := s1.pendingTimers ++ [(s1.nextId, t1 + 300)]
        timerRef := some s1.nextId
        nextId := s1.nextId + 1 }
    else
      { s1 with boxes := [], uniqueCodes := [] }
  else s

/-- The Start button of line 164: `setIsScanning(true)`. -/
def pressStart (s : SessionState) : SessionState :=
  { s with isScanning := true }

/-- The Stop button of line 162: `setIsScanning(false)` and nothing
else. -/
def pressStop (s : SessionState) : SessionState :=
  { s with isScanning := false }

/-- A pending clear timer fires (callback of lines 76-79): both arrays
are emptied and the fired timer leaves the runtime's pending list.  The
source callback does not null `timerRef.current`. -/
def fireTimer (s : SessionState) (id : ℕ) : SessionState :=
  { s with
    boxes := []
    uniqueCodes := []
    pendingTimers := s.pendingTimers.filter (fun p => p.1 ≠ id) }

/-- The unmount cleanup of lines 93-97: clear the referenced timer. -/
def teardown (s : SessionState) : SessionState :=
  cancelRef s

/-- One step of the session: a detection frame, a button press, a pending
timer firing at an instant past its deadline, or the unmount cleanup. -/
inductive Step (m : Metrics) (s : SessionState) : SessionState → Prop
  | frame (codes : List RawCode) (f : FrameDims) (t0 t1 : ℤ) :
      Step m s (handleFrame m s codes f t0 t1)
  | start : Step m s (pressStart s)
  | stop : Step m s (pressStop s)
  | fire (id : ℕ) (d now : ℤ) (hmem : (id, d) ∈ s.pendingTimers)
      (hle : d ≤ now) : Step m s (fireTimer s id)
  | dispose : Step m s (teardown s)

/-- States reachable from component mount. -/
def Reachable (m : Metrics) (s : SessionState) : Prop :=
  Relation.ReflTransGen (Step m) initialState s

/-- Timer-coherence invariant: the runtime holds at most one pending
clear timer, and a pending one is exactly the one `timerRef` refers
to. -/
def TimerInv (s : SessionState) : Prop :=
  s.pendingTimers = [] ∨
    ∃ i d, s.pendingTimers = [(i, d)] ∧ s.timerRef = some i

/-- The device metrics of the spec's worked example
(`screenWidthPixelsRounded = 1080`, `screenHeightPixelsRounded = 2400`,
`pixelRatio = 3`). -/
def demoMetrics : Metrics :=
  { screenWidthPixelsRounded := 1080
    screenHeightPixelsRounded := 2400
    pixelRatio := 3 }

/-- The detector frame of the spec's worked example (480 × 640). -/
def demoFrame : FrameDims :=
  { width := 480, height := 640 }

/-- A concrete detected code used to instantiate universally quantified
theorems. -/
def demoCode : RawCode :=
  { value := some (Nat.repr 1)
    frame := { x := 100, y := 50, width := 40, height := 20 }
    corners := [⟨0, 0⟩, ⟨10, 0⟩, ⟨10, 10⟩, ⟨0, 10⟩] }

/-- A concrete Active state with clean arrays and no pending timer. -/
def activeState : SessionState :=
  { isScanning := true
    boxes := []
    uniqueCodes := []
    pendingTimers := []
    timerRef := none
    nextId := 0 }

/-- A code whose payload failed to decode (`value` null): it produces a
box but no `uniqueCodes` entry. -/
def noValueCode : RawCode :=
  { value := none
    frame := { x := 0, y := 0, width := 0, height := 0 }
    corners := [] }

/-- The state after mounting, pressing Start, and one detection frame
carrying `demoCode` at time 0. -/
def liveState : SessionState :=
  handleFrame demoMetrics (pressStart initialState) [demoCode] demoFrame 0 0

/-! ### Helper lemmas -/

theorem cancelRef_isScanning (s : SessionState) :
    (cancelRef s).isScanning = s.isScanning := by
  unfold cancelRef; cases s.timerRef <;> rfl

theorem cancelRef_boxes (s : SessionState) :
    (cancelRef s).boxes = s.boxes := by
  unfold cancelRef; cases s.timerRef <;> rfl

theorem cancelRef_uniqueCodes (s : SessionState) :
    (cancelRef s).uniqueCodes = s.uniqueCodes := by
  unfold cancelRef; cases s.timerRef <;> rfl

theorem cancelRef_timerRef (s : SessionState) :
    (cancelRef s).timerRef = s.timerRef := by
  unfold cancelRef; cases h : s.timerRef <;> simp [h]

theorem cancelRef_nextId (s : SessionState) :
    (cancelRef s).nextId = s.nextId := by
  unfold cancelRef; cases s.timerRef <;> rfl

/-- Under the timer-coherence invariant, `clearTimeout` leaves the
runtime with no pending timer at all. -/
theorem cancelRef_pending_empty (s : SessionState) (h : TimerInv s) :
    (cancelRef s).pendingTimers = [] := by
  rcases h with h0 | ⟨i, d, hp, hr⟩
  · unfold cancelRef; cases s.timerRef <;> simp [h0]
  · unfold cancelRef; rw [hr]; simp [hp]

/-- Folding append of generated segments equals the accumulated prefix
followed by the flattened segments. -/
theorem foldl_append_eq_flatMap {α β : Type} (g : α → List β) :
    ∀ (l : List α) (acc : List β),
      l.foldl (fun a x => a ++ g x) acc = acc ++ l.flatMap g := by
  intro l
  induction l with
  | nil => intro acc; simp
  | cons x xs ih =>
    intro acc
    simp only [List.foldl_cons, List.flatMap_cons, ih, List.append_assoc]

/-- The `reduce`-built corners object, characterised without the fold:
one `point{i+1}x` / `point{i+1}y` pair per corner, in input order. -/
theorem buildCorners_eq (m : Metrics) (f : FrameDims) (cs : List Point) :
    buildCorners m f cs = cs.enum.flatMap (fun ip =>
      [(pointKeyX ip.1, ip.2.x * m.screenWidthPixelsRounded / f.height),
       (pointKeyY ip.1, ip.2.y * m.screenHeightPixelsRounded / f.width)]) := by
  unfold buildCorners
  rw [foldl_append_eq_flatMap]
  rfl

theorem length_flatMap_two {α β : Type} (g : α → List β)
    (h : ∀ x, (g x).length = 2) :
    ∀ l : List α, (l.flatMap g).length = 2 * l.length := by
  intro l
  induction l with
  | nil => simp
  | cons x xs ih =>
    simp only [List.flatMap_cons, List.length_append, h, ih, List.length_cons]
    ring

/-- `currentFrameValues` as a single `filterMap`: each code with a
present value yields one entry, in input order, others are dropped. -/
theorem mkEntries_eq_filterMap (codes : List RawCode) (t0 t1 : ℤ) :
    mkEntries codes t0 t1 = codes.filterMap (fun code =>
      code.value.map (fun v =>
        ({ value := some v, scanTime := t1 - t0 } : ScannedEntry))) := by
  induction codes with
  | nil => rfl
  | cons c cs ih =>
    unfold mkEntries at *
    cases hv : c.value with
    | none => simp [List.filter_cons, List.filterMap_cons, hv, ih]
    | some v => simp [List.filter_cons, List.filterMap_cons, hv, ih]

theorem mkEntries_length (codes : List RawCode) (t0 t1 : ℤ) :
    (mkEntries codes t0 t1).length
      = (codes.filter (fun code => code.value.isSome)).length := by
  unfold mkEntries
  have hpred : ((fun data : ScannedEntry => data.value.isSome) ∘ fun code : RawCode =>
      ({ value := code.value, scanTime := t1 - t0 } : ScannedEntry))
        = fun code : RawCode => code.value.isSome := by
    funext code; rfl
  rw [List.filter_map, hpred, List.length_map]

/-- Handling a frame preserves timer coherence: the handler cancels the
referenced timer before (possibly) scheduling exactly one new one. -/
theorem timerInv_handleFrame (m : Metrics) (s : SessionState) (codes : List RawCode)
    (f : FrameDims) (t0 t1 : ℤ) (h : TimerInv s) :
    TimerInv (handleFrame m s codes f t0 t1) := by
  by_cases hs : s.isScanning = true
  · by_cases hn : codes.length > 0
    · right
      refine ⟨(cancelRef s).nextId, t1 + 300, ?_, ?_⟩
      · simp only [handleFrame, hs, if_true, hn]
        rw [cancelRef_pending_empty s h]
        rfl
      · simp only [handleFrame, hs, if_true, hn]
    · left
      simp only [handleFrame, hs, if_true, hn, if_false]
      exact cancelRef_pending_empty s h
  · simpa only [handleFrame, hs, if_false] using h

/-- A firing timer preserves timer coherence. -/
theorem timerInv_fireTimer (s : SessionState) (id : ℕ) (h : TimerInv s) :
    TimerInv (fireTimer s id) := by
  rcases h with h0 | ⟨i, d, hp, hr⟩
  · left
    simp only [fireTimer, h0, List.filter_nil]
  · by_cases hid : i = id
    · left
      simp [fireTimer, hp, hid]
    · right
      exact ⟨i, d, by simp [fireTimer, hp, hid], hr⟩

/-- Every step of the session preserves timer coherence. -/
theorem step_preserves_timerInv {m : Metrics} {s s' : SessionState}
    (h : TimerInv s) (hstep : Step m s s') : TimerInv s' := by
  cases hstep with
  | frame codes f t0 t1 => exact timerInv_handleFrame m s codes f t0 t1 h
  | start => exact h
  | stop => exact h
  | fire id d now hmem hle => exact timerInv_fireTimer s id h
  | dispose => exact Or.inl (cancelRef_pending_empty s h)

/-- Timer coherence holds in every reachable state. -/
theorem reachable_timerInv {m : Metrics} {s : SessionState}
    (h : Reachable m s) : TimerInv s := by
  unfold Reachable at h
  induction h with
  | refl => exact Or.inl rfl
  | tail _ hbc ih => exact step_preserves_timerInv ih hbc

theorem timerInv_length_le (s : SessionState) (h : TimerInv s) :
    s.pendingTimers.length ≤ 1 := by
  rcases h with h0 | ⟨i, d, hp, _⟩
  · simp [h0]
  · simp [hp]

/-! ### Claim theorems -/

/-- C1 (counterexample): in a reachable Active state holding non-empty
`boxes` and `uniqueCodes`, pressing the live Stop button (line 162) flips
`isScanning` to false but does NOT clear `boxes` or `uniqueCodes`: the
claim's "immediately sets boxes and uniqueCodes to the empty list" fails
(that behaviour exists only in the commented-out block of lines
144-159). -/
theorem stop_does_not_clear_counterexample :
    liveState.isScanning = true ∧
    (pressStop liveState).isScanning = false ∧
    (pressStop liveState).boxes ≠ [] ∧
    (pressStop liveState).uniqueCodes ≠ [] := by
  refine ⟨rfl, rfl, ?_, ?_⟩ <;>
    simp [pressStop, liveState, handleFrame, pressStart, initialState, cancelRef,
      mkEntries, demoCode]

/-- C1 (amended): the Stop action transitions `isScanning` from true to
false, leaves `boxes` and `uniqueCodes` unchanged (it does not clear
them), and leaves any pending clear timer uncancelled. -/
theorem stop_amended (s : SessionState) (h : s.isScanning = true) :
    s.isScanning = true ∧
    (pressStop s).isScanning = false ∧
    (pressStop s).boxes = s.boxes ∧
    (pressStop s).uniqueCodes = s.uniqueCodes ∧
    (pressStop s).pendingTimers = s.pendingTimers ∧
    (pressStop s).timerRef = s.timerRef :=
  ⟨h, rfl, rfl, rfl, rfl, rfl⟩

/-- Witness for the amended C1 at the concrete Active state
`liveState`. -/
theorem stop_amended_witness :
    liveState.isScanning = true ∧
    (pressStop liveState).isScanning = false ∧
    (pressStop liveState).boxes = liveState.boxes ∧
    (pressStop liveState).uniqueCodes = liveState.uniqueCodes ∧
    (pressStop liveState).pendingTimers = liveState.pendingTimers ∧
    (pressStop liveState).timerRef = liveState.timerRef :=
  stop_amended liveState rfl

/-- C2: while Active, a non-empty frame replaces `boxes` by the per-code
map; each rectangle field is the frame-rect field scaled by the swapped
screen/frame ratio and divided by `pixelRatio`; at the spec's worked
example the box is {56.25, 83.33.., 22.5, 33.33..}. -/
theorem box_mapping (m : Metrics) (s : SessionState) (codes : List RawCode)
    (f : FrameDims) (t0 t1 : ℤ) (hs : s.isScanning = true) (hn : 0 < codes.length) :
    (handleFrame m s codes f t0 t1).boxes = codes.map (mapCode m f) ∧
    (∀ code : RawCode,
      (mapCode m f code).x
        = code.frame.x * m.screenWidthPixelsRounded / f.height / m.pixelRatio ∧
      (mapCode m f code).y
        = code.frame.y * m.screenHeightPixelsRounded / f.width / m.pixelRatio ∧
      (mapCode m f code).width
        = code.frame.width * m.screenWidthPixelsRounded / f.height / m.pixelRatio ∧
      (mapCode m f code).height
        = code.frame.height * m.screenHeightPixelsRounded / f.width / m.pixelRatio) ∧
    (mapCode demoMetrics demoFrame demoCode).x = 225 / 4 ∧
    (mapCode demoMetrics demoFrame demoCode).y = 250 / 3 ∧
    (mapCode demoMetrics demoFrame demoCode).width = 45 / 2 ∧
    (mapCode demoMetrics demoFrame demoCode).height = 100 / 3 := by
  refine ⟨?_, fun code => ⟨rfl, rfl, rfl, rfl⟩, ?_, ?_, ?_, ?_⟩
  · simp only [handleFrame, hs, hn, if_true]
  · norm_num [mapCode, demoMetrics, demoFrame, demoCode]
  · norm_num [mapCode, demoMetrics, demoFrame, demoCode]
  · norm_num [mapCode, demoMetrics, demoFrame, demoCode]
  · norm_num [mapCode, demoMetrics, demoFrame, demoCode]

/-- Witness for C2 at a concrete Active state and frame. -/
theorem box_mapping_witness :
    (handleFrame demoMetrics activeState [demoCode] demoFrame 0 0).boxes
      = [demoCode].map (mapCode demoMetrics demoFrame) :=
  (box_mapping demoMetrics activeState [demoCode] demoFrame 0 0 rfl (by decide)).1

/-- C3: the corners mapping holds, per corner `i` in input order, the
pair `point{i+1}x = corner.x * screenWidthPixelsRounded / frame.height`
and `point{i+1}y = corner.y * screenHeightPixelsRounded / frame.width`,
with no division by `pixelRatio`, and has exactly one key pair per
corner, however many corners are present. -/
theorem corners_mapping (m : Metrics) (f : FrameDims) (code : RawCode) :
    (mapCode m f code).corners =
      code.corners.enum.flatMap (fun ip =>
        [(pointKeyX ip.1, ip.2.x * m.screenWidthPixelsRounded / f.height),
         (pointKeyY ip.1, ip.2.y * m.screenHeightPixelsRounded / f.width)]) ∧
    (mapCode m f code).corners.length = 2 * code.corners.length := by
  have hb : (mapCode m f code).corners = buildCorners m f code.corners := rfl
  constructor
  · rw [hb, buildCorners_eq]
  · have h2 := length_flatMap_two (fun ip : ℕ × Point =>
      [(pointKeyX ip.1, ip.2.x * m.screenWidthPixelsRounded / f.height),
       (pointKeyY ip.1, ip.2.y * m.screenHeightPixelsRounded / f.width)])
      (fun ip => rfl) code.corners.enum
    rw [hb, buildCorners_eq, h2, List.enum_length]

/-- C4: a non-empty frame with `n` codes yields exactly `n` boxes, while
`uniqueCodes` has one entry per code with a present value (hence at most
`n`, and the two lengths can differ, as `noValueCode` shows). -/
theorem frame_lengths (m : Metrics) (s : SessionState) (codes : List RawCode)
    (f : FrameDims) (t0 t1 : ℤ) (hs : s.isScanning = true) (hn : 0 < codes.length) :
    (handleFrame m s codes f t0 t1).boxes.length = codes.length ∧
    (handleFrame m s codes f t0 t1).uniqueCodes.length
      = (codes.filter (fun code => code.value.isSome)).length ∧
    (handleFrame m s codes f t0 t1).uniqueCodes.length ≤ codes.length ∧
    (handleFrame demoMetrics activeState [noValueCode] demoFrame 0 0).boxes.length = 1 ∧
    (handleFrame demoMetrics activeState [noValueCode] demoFrame 0 0).uniqueCodes.length
      = 0 := by
  have hbox : (handleFrame m s codes f t0 t1).boxes = codes.map (mapCode m f) := by
    simp only [handleFrame, hs, hn, if_true]
  have huniq : (handleFrame m s codes f t0 t1).uniqueCodes = mkEntries codes t0 t1 := by
    simp only [handleFrame, hs, hn, if_true]
  refine ⟨?_, ?_, ?_, ?_, ?_⟩
  · rw [hbox, List.length_map]
  · rw [huniq, mkEntries_length]
  · rw [huniq, mkEntries_length]
    exact List.length_filter_le _ _
  · simp [handleFrame, activeState, cancelRef]
  · simp [handleFrame, activeState, cancelRef, mkEntries, noValueCode]

/-- Witness for C4 at a concrete Active state and frame. -/
theorem frame_lengths_witness :
    (handleFrame demoMetrics activeState [demoCode, noValueCode] demoFrame 0 0).boxes.length
      = [demoCode, noValueCode].length :=
  (frame_lengths demoMetrics activeState [demoCode, noValueCode] demoFrame 0 0 rfl
    (by decide)).1

/-- C5: while Active, `uniqueCodes` is the input sequence mapped to
`{value, scanTime = t1 - t0}` and filtered to present values
(equivalently a single order-preserving `filterMap`); duplicate values
are kept, as the double-`demoCode` frame shows. -/
theorem unique_codes_contents (m : Metrics) (s : SessionState) (codes : List RawCode)
    (f : FrameDims) (t0 t1 : ℤ) (hs : s.isScanning = true) (hn : 0 < codes.length) :
    (handleFrame m s codes f t0 t1).uniqueCodes
      = (codes.map (fun code =>
          ({ value := code.value, scanTime := t1 - t0 } : ScannedEntry))).filter
            (fun data => data.value.isSome) ∧
    (handleFrame m s codes f t0 t1).uniqueCodes
      = codes.filterMap (fun code => code.value.map (fun v =>
          ({ value := some v, scanTime := t1 - t0 } : ScannedEntry))) ∧
    mkEntries [demoCode, demoCode] 0 5
      = [{ value := some (Nat.repr 1), scanTime := 5 },
         { value := some (Nat.repr 1), scanTime := 5 }] := by
  have huniq : (handleFrame m s codes f t0 t1).uniqueCodes = mkEntries codes t0 t1 := by
    simp only [handleFrame, hs, hn, if_true]
  refine ⟨?_, ?_, ?_⟩
  · rw [huniq]
    rfl
  · rw [huniq, mkEntries_eq_filterMap]
  · simp [mkEntries, demoCode]

/-- Witness for C5 at a concrete Active state and frame. -/
theorem unique_codes_contents_witness :
    (handleFrame demoMetrics activeState [demoCode] demoFrame 0 5).uniqueCodes
      = ([demoCode].map (fun code =>
          ({ value := code.value, scanTime := 5 - 0 } : ScannedEntry))).filter
            (fun data => data.value.isSome) :=
  (unique_codes_contents demoMetrics activeState [demoCode] demoFrame 0 5 rfl
    (by decide)).1

/-- C6: while Active, an empty frame clears both arrays, cancels the
pending timer (the runtime ends with none pending) and schedules no new
one (no fresh handle is consumed). -/
theorem empty_frame_clears (m : Metrics) (s : SessionState) (f : FrameDims)
    (t0 t1 : ℤ) (hs : s.isScanning = true) (hinv : TimerInv s) :
    (handleFrame m s [] f t0 t1).boxes = [] ∧
    (handleFrame m s [] f t0 t1).uniqueCodes = [] ∧
    (handleFrame m s [] f t0 t1).pendingTimers = [] ∧
    (handleFrame m s [] f t0 t1).nextId = s.nextId := by
  have hred : handleFrame m s [] f t0 t1
      = { cancelRef s with boxes := [], uniqueCodes := [] } := by
    simp [handleFrame, hs]
  rw [hred]
  exact ⟨rfl, rfl, cancelRef_pending_empty s hinv, cancelRef_nextId s⟩

/-- Witness for C6 at a concrete Active state. -/
theorem empty_frame_clears_witness :
    (handleFrame demoMetrics activeState [] demoFrame 0 0).boxes = [] ∧
    (handleFrame demoMetrics activeState [] demoFrame 0 0).uniqueCodes = [] ∧
    (handleFrame demoMetrics activeState [] demoFrame 0 0).pendingTimers = [] ∧
    (handleFrame demoMetrics activeState [] demoFrame 0 0).nextId = activeState.nextId :=
  empty_frame_clears demoMetrics activeState demoFrame 0 0 rfl (Or.inl rfl)

/-- C7: while Idle, a detection frame leaves the whole session state
untouched: no array change, no timer scheduled or cancelled. -/
theorem idle_frames_ignored (m : Metrics) (s : SessionState) (codes : List RawCode)
    (f : FrameDims) (t0 t1 : ℤ) (hs : s.isScanning = false) :
    handleFrame m s codes f t0 t1 = s := by
  simp [handleFrame, hs]

/-- Witness for C7 at the mount state. -/
theorem idle_frames_ignored_witness :
    handleFrame demoMetrics initialState [demoCode] demoFrame 0 0 = initialState :=
  idle_frames_ignored demoMetrics initialState [demoCode] demoFrame 0 0 rfl

/-- C8: in every reachable session state at most one clear timer is
pending; handling any further frame keeps it so, and teardown leaves no
pending timer. -/
theorem at_most_one_timer (m : Metrics) (s : SessionState) (h : Reachable m s) :
    s.pendingTimers.length ≤ 1 ∧
    (∀ (codes : List RawCode) (f : FrameDims) (t0 t1 : ℤ),
      (handleFrame m s codes f t0 t1).pendingTimers.length ≤ 1) ∧
    (teardown s).pendingTimers = [] := by
  have hinv := reachable_timerInv h
  refine ⟨timerInv_length_le s hinv, ?_, cancelRef_pending_empty s hinv⟩
  intro codes f t0 t1
  exact timerInv_length_le _ (timerInv_handleFrame m s codes f t0 t1 hinv)

/-- Witness for C8 at the reachable state `liveState` (mount, Start, one
non-empty frame). -/
theorem at_most_one_timer_witness :
    liveState.pendingTimers.length ≤ 1 ∧
    (∀ (codes : List RawCode) (f : FrameDims) (t0 t1 : ℤ),
      (handleFrame demoMetrics liveState codes f t0 t1).pendingTimers.length ≤ 1) ∧
    (teardown liveState).pendingTimers = [] :=
  at_most_one_timer demoMetrics liveState
    (Relation.ReflTransGen.tail
      (Relation.ReflTransGen.tail Relation.ReflTransGen.refl Step.start)
      (Step.frame [demoCode] demoFrame 0 0))

/-- Fully reduced form of a non-empty Active frame step, under timer
coherence: exactly one timer is pending, with deadline 300 ms after the
scheduling instant, held by the fresh handle `s.nextId`. -/
theorem handleFrame_pos_eq (m : Metrics) (s : SessionState) (codes : List RawCode)
    (f : FrameDims) (t0 t1 : ℤ) (hs : s.isScanning = true) (hinv : TimerInv s)
    (hn : 0 < codes.length) :
    handleFrame m s codes f t0 t1
      = { isScanning := s.isScanning
          boxes := codes.map (mapCode m f)
          uniqueCodes := mkEntries codes t0 t1
          pendingTimers := [(s.nextId, t1 + 300)]
          timerRef := some s.nextId
          nextId := s.nextId + 1 } := by
  have hpe := cancelRef_pending_empty s hinv
  have hni := cancelRef_nextId s
  have his := cancelRef_isScanning s
  simp only [handleFrame, hs, hn, if_true, hpe, hni, his, List.nil_append]

/-- Every timer pending after a frame step carries the handle that was
fresh when that frame was handled. -/
theorem handleFrame_handles (m : Metrics) (s : SessionState) (codes : List RawCode)
    (f : FrameDims) (t0 t1 : ℤ) (hs : s.isScanning = true) (hinv : TimerInv s) :
    ∀ p ∈ (handleFrame m s codes f t0 t1).pendingTimers, p.1 = s.nextId := by
  intro p hp
  by_cases hn : codes.length > 0
  · rw [handleFrame_pos_eq m s codes f t0 t1 hs hinv hn] at hp
    simp only [List.mem_singleton] at hp
    rw [hp]
  · have hempty : (handleFrame m s codes f t0 t1).pendingTimers = [] := by
      simp only [handleFrame, hs, if_true, hn, if_false]
      exact cancelRef_pending_empty s hinv
    rw [hempty] at hp
    exact absurd hp (List.not_mem_nil p)

/-- C9: while Active, a non-empty frame schedules exactly one clear
timer with the fixed deadline `t1 + 300`; that timer cannot fire at any
instant earlier than 300 ms after scheduling; any further frame removes
it before it can fire (the state never flashes empty between frames less
than 300 ms apart); and if it does fire it empties both arrays exactly
once, leaving no pending timer. -/
theorem debounce_clear_timer (m : Metrics) (s : SessionState) (codes : List RawCode)
    (f : FrameDims) (t0 t1 : ℤ) (hs : s.isScanning = true) (hinv : TimerInv s)
    (hn : 0 < codes.length) :
    (handleFrame m s codes f t0 t1).pendingTimers = [(s.nextId, t1 + 300)] ∧
    (∀ now : ℤ, now < t1 + 300 →
      ∀ p ∈ (handleFrame m s codes f t0 t1).pendingTimers, ¬ p.2 ≤ now) ∧
    (∀ (codes2 : List RawCode) (f2 : FrameDims) (t2 t3 : ℤ),
      ∀ p ∈ (handleFrame m (handleFrame m s codes f t0 t1) codes2 f2 t2 t3).pendingTimers,
        p.1 ≠ s.nextId) ∧
    (fireTimer (handleFrame m s codes f t0 t1) s.nextId).boxes = [] ∧
    (fireTimer (handleFrame m s codes f t0 t1) s.nextId).uniqueCodes = [] ∧
    (fireTimer (handleFrame m s codes f t0 t1) s.nextId).pendingTimers = [] := by
  have hred := handleFrame_pos_eq m s codes f t0 t1 hs hinv hn
  refine ⟨?_, ?_, ?_, ?_, ?_, ?_⟩
  · rw [hred]
  · intro now hlt p hp
    rw [hred] at hp
    simp only [List.mem_singleton] at hp
    rw [hp]
    simp only [not_le]
    omega
  · intro codes2 f2 t2 t3 p hp
    have hinv1 : TimerInv (handleFrame m s codes f t0 t1) :=
      timerInv_handleFrame m s codes f t0 t1 hinv
    have hs1 : (handleFrame m s codes f t0 t1).isScanning = true := by
      rw [hred]
      exact hs
    have hid := handleFrame_handles m (handleFrame m s codes f t0 t1) codes2 f2 t2 t3
      hs1 hinv1 p hp
    have hnext : (handleFrame m s codes f t0 t1).nextId = s.nextId + 1 := by
      rw [hred]
    rw [hnext] at hid
    omega
  · rw [hred]
    rfl
  · rw [hred]
    rfl
  · rw [hred]
    simp [fireTimer]

/-- Witness for C9 at a concrete Active state and frame. -/
theorem debounce_clear_timer_witness :
    (handleFrame demoMetrics activeState [demoCode] demoFrame 0 0).pendingTimers
      = [(activeState.nextId, 0 + 300)] :=
  (debounce_clear_timer demoMetrics activeState [demoCode] demoFrame 0 0 rfl
    (Or.inl rfl) (by decide)).1

/-- C10: for fixed metrics, the boxes produced by a frame depend only on
`(codes, frame)`: neither the prior session state nor the clock readings
influence them (corner mappings included, being fields of the boxes). -/
theorem boxes_deterministic (m : Metrics) (s s2 : SessionState)
    (codes : List RawCode) (f : FrameDims) (t0 t1 t2 t3 : ℤ)
    (hs : s.isScanning = true) (hs2 : s2.isScanning = true) :
    (handleFrame m s codes f t0 t1).boxes = (handleFrame m s2 codes f t2 t3).boxes := by
  by_cases hn : codes.length > 0
  · simp [handleFrame, hs, hs2, hn]
  · simp [handleFrame, hs, hs2, hn]

/-- Witness for C10: two different Active states and clock readings give
the same boxes. -/
theorem boxes_deterministic_witness :
    (handleFrame demoMetrics activeState [demoCode] demoFrame 0 0).boxes
      = (handleFrame demoMetrics liveState [demoCode] demoFrame 7 9).boxes :=
  boxes_deterministic demoMetrics activeState liveState [demoCode] demoFrame 0 0 7 9
    rfl rfl

end ObjectDetection
